import Mathlib

/-!
Shallow embedding of the data-access layer of the TradingAgents repository:
the site-search aggregator (`get_stock_news_openai` in
`tradingagents/dataflows/interface.py`), the vendor router (`route_to_vendor`
in the same file), and the online time-series cache and indicator lookup
(`StockstatsUtils.get_stock_stats` in
`tradingagents/dataflows/stockstats_utils.py`).

Python dicts returned by the per-site searches are modelled as structures
whose `Option` fields record whether the corresponding key is present;
`item.get(k)` becomes field access, `item.get(k, d)` becomes `Option.getD`.
External effects (the OpenAI web-search call, vendor implementations, the
remote price fetch, the on-disk cache file) are modelled as explicit inputs
describing their outcome for the one call under consideration.
-/

namespace TradingAgents

/-! ## String helpers

`String.splitOn` and `String.trim` from the Lean library are defined through
byte positions and do not reduce in the kernel, so the Python expressions
`vendor_config.split(',')` and `v.strip()` are modelled directly on the
character list of the string, with the same semantics. -/

/-- Split a character list at every comma, like Python `str.split(',')`:
the empty string yields one empty field. -/
def splitCommaChars : List Char → List (List Char)
  | [] => [[]]
  | c :: rest =>
    let r := splitCommaChars rest
    if c = ',' then [] :: r
    else
      match r with
      | [] => [[c]]
      | g :: gs => (c :: g) :: gs

/-- Python `s.split(',')`. -/
def pySplitComma (s : String) : List String :=
  (splitCommaChars s.data).map (fun l => String.mk l)

/-- Python `s.strip()`: drop leading and trailing whitespace. -/
def pyStrip (s : String) : String :=
  String.mk (((s.data.dropWhile Char.isWhitespace).reverse.dropWhile Char.isWhitespace).reverse)

/-- The list of Unicode code points of a string.  Python compares strings
lexicographically by code point; `List Nat` carries exactly that
lexicographic order, and (unlike `String.le`) its decidability reduces in
the kernel. -/
def strKey (s : String) : List Nat :=
  s.data.map Char.toNat

/-! ## Site-search aggregator (`get_stock_news_openai`) -/

/-- One JSON item of a per-site search response.  Each field is an `Option`
recording whether the key is present in the dict; `platform` and `category`
are the tags written into the item by the aggregation loop. -/
structure NewsItem where
  author : Option String := none
  datetime_local : Option String := none
  title_or_snippet : Option String := none
  url : Option String := none
  platform : Option String := none
  category : Option String := none
deriving Repr, DecidableEq

/-- One entry of the hard-coded `SITES` list: `(site_name, domains, category)`. -/
structure Site where
  name : String
  domains : List String
  category : String
deriving Repr, DecidableEq

/-- The fixed `SITES` constant of `get_stock_news_openai`. -/
def SITES : List Site := [
  ⟨"东方财富股吧", ["guba.eastmoney.com"], "social"⟩,
  ⟨"百度贴吧", ["tieba.baidu.com"], "social"⟩,
  ⟨"知乎", ["zhihu.com"], "social"⟩,
  ⟨"微博", ["m.weibo.cn", "weibo.com"], "social"⟩,
  ⟨"雪球", ["xueqiu.com"], "social"⟩,
  ⟨"新浪财经", ["finance.sina.com.cn", "sina.com.cn"], "news"⟩,
  ⟨"华尔街见闻", ["wallstreetcn.com"], "news"⟩,
  ⟨"同花顺", ["10jqka.com.cn"], "news"⟩,
  ⟨"东方财富新闻", ["eastmoney.com"], "news"⟩,
  ⟨"财联社", ["cls.cn"], "news"⟩]

/-- The dict a per-site search parses to (the shape `search_one_site`
returns in the JSON-success and parse-failure cases). -/
structure SiteResult where
  platform : Option String := none
  category : Option String := none
  items : List NewsItem := []
  found_count : Option Nat := none
  error : Option String := none
deriving Repr, DecidableEq

/-- Outcome of the external web-search call for one site, as seen by
`search_one_site`: the client call raises, returns no text, returns text
that is not valid JSON, or returns text parsing to a `SiteResult` dict. -/
inductive WireOutcome where
  | raises (msg : String)
  | noText
  | unparsable
  | json (r : SiteResult)
deriving Repr, DecidableEq

/-- `search_one_site`: an exception or an empty response yields `None`; an
unparsable response degrades to an empty result dict for that site carrying
the error marker `"Failed to parse response"`; a parsed response is
returned as-is. -/
def search_one_site (site : Site) (w : WireOutcome) : Option SiteResult :=
  match w with
  | .raises _ => none
  | .noText => none
  | .unparsable =>
      some { platform := some site.name, category := some site.category,
             items := [], found_count := some 0,
             error := some "Failed to parse response" }
  | .json r => some r

/-- The aggregation loop tags each returned item with the platform and
category of its response (`item["platform"] = result.get("platform", site[0])`
and likewise for the category). -/
def tagItem (site : Site) (r : SiteResult) (it : NewsItem) : NewsItem :=
  { it with platform := some (r.platform.getD site.name),
            category := some (r.category.getD site.category) }

/-- One entry of the `search_summary` list: the site name and its
`found_count`. -/
structure SiteSummary where
  site : String
  found_count : Nat
deriving Repr, DecidableEq

/-- The contribution of one site to the aggregation loop: the tagged items
appended to `all_items` and the entry appended to `search_summary`.  A `None`
result from `search_one_site` contributes no items and a `found_count` of
`0`; otherwise the summary records `result.get("found_count", len(items))`. -/
def collectSite (site : Site) (w : WireOutcome) : List NewsItem × SiteSummary :=
  match search_one_site site w with
  | some r => (r.items.map (tagItem site r), ⟨site.name, r.found_count.getD r.items.length⟩)
  | none => ([], ⟨site.name, 0⟩)

/-- `all_items` after the loop: the concatenation, in site order, of every
site's tagged items. -/
def allItems (runs : List (Site × WireOutcome)) : List NewsItem :=
  runs.flatMap (fun p => (collectSite p.1 p.2).1)

/-- `search_summary` after the loop: one entry per site, in site order. -/
def searchSummary (runs : List (Site × WireOutcome)) : List SiteSummary :=
  runs.map (fun p => (collectSite p.1 p.2).2)

/-- The deduplication loop over `all_items` with its `seen_urls` set:
an item is kept iff its `url` key is present, non-empty, and not seen
before (`if url and url not in seen_urls`); kept urls are added to the
seen set. -/
def dedupByUrl : List NewsItem → List String → List NewsItem
  | [], _ => []
  | it :: rest, seen =>
    match it.url with
    | some u =>
        if u ≠ "" && !seen.contains u then it :: dedupByUrl rest (u :: seen)
        else dedupByUrl rest seen
    | none => dedupByUrl rest seen

/-- The sort key of an item: the code points of `item.get("datetime_local", "")`. -/
def dtKey (it : NewsItem) : List Nat :=
  strKey (it.datetime_local.getD "")

/-- `unique_items.sort(key=lambda x: x.get("datetime_local", ""))`: a stable
ascending sort by the datetime string. -/
def sortByDatetime (l : List NewsItem) : List NewsItem :=
  l.insertionSort (fun a b => dtKey a ≤ dtKey b)

/-- The `summary` dict of the final result. -/
structure Summary where
  total_items_found : Nat
  unique_items : Nat
  sites_searched : Nat
  date_range : String
  search_details : List SiteSummary
deriving Repr, DecidableEq

/-- The final result dict of `get_stock_news_openai`. -/
structure AggResult where
  items : List NewsItem
  summary : Summary
deriving Repr, DecidableEq

/-- The aggregation pipeline after the per-site calls: concatenate, dedup by
url, sort by datetime, and build the summary from the raw count, the unique
count, the number of sites and the per-site breakdown. -/
def aggregate (runs : List (Site × WireOutcome)) (start_date end_date : String) : AggResult :=
  let all := allItems runs
  let uniq := dedupByUrl all []
  { items := sortByDatetime uniq,
    summary := { total_items_found := all.length,
                 unique_items := uniq.length,
                 sites_searched := runs.length,
                 date_range := start_date ++ " to " ++ end_date,
                 search_details := searchSummary runs } }

/-- `get_stock_news_openai`, with the external world supplied as the wire
outcome of each site's search: the loop visits exactly the configured
`SITES`, each with its own independent outcome. -/
def get_stock_news_openai (wire : Site → WireOutcome) (start_date end_date : String) : AggResult :=
  aggregate (SITES.map (fun s => (s, wire s))) start_date end_date

/-! ## Vendor router (`route_to_vendor`)

A vendor implementation applied to the (fixed) argument list of one call
either returns a value, raises the rate-limit-specific
`AlphaVantageRateLimitError`, or raises some other exception; the registry
`VENDOR_METHODS[method]` is a dict from vendor name to implementation,
modelled as an association list in registry order with distinct keys. -/

/-- Outcome of invoking one vendor implementation on the call's arguments. -/
inductive VendorOutcome (α : Type) where
  | ok (a : α)
  | rateLimited
  | err (e : String)
deriving Repr, DecidableEq

/-- Result of `route_to_vendor`: a vendor's return value, a propagated
non-rate-limit vendor exception, the `ValueError` for an unregistered
method, or the final `RuntimeError` when the chain is exhausted. -/
inductive RouteResult (α : Type) where
  | ok (a : α)
  | raised (e : String)
  | unsupported (msg : String)
  | noAvailableVendor (msg : String)
deriving Repr, DecidableEq

/-- Dict lookup `VENDOR_METHODS[method].get(vendor)` on the association
list modelling the registry. -/
def lookupVendor {α : Type} (reg : List (String × VendorOutcome α)) (v : String) :
    Option (VendorOutcome α) :=
  (reg.find? (fun p => p.1 == v)).map (fun p => p.2)

/-- `primary_vendors = [v.strip() for v in vendor_config.split(',')]`. -/
def primaryVendors (vendorConfig : String) : List String :=
  (pySplitComma vendorConfig).map pyStrip

/-- The chain-building loop: start from a copy of the primary vendors and
append each registered vendor not already in the chain, in registry order. -/
def buildFallbackChain (primary registered : List String) : List String :=
  registered.foldl (fun acc v => if acc.contains v then acc else acc ++ [v]) primary

/-- The `for vendor in fallback_vendors` loop, instrumented with the list of
vendors actually invoked: a vendor absent from the registry is skipped; a
rate-limited invocation advances to the next vendor; a successful or
otherwise-failing invocation ends the loop; an exhausted chain raises
`RuntimeError(f"No available vendor for '\x7bmethod\x7d'")`. -/
def routeIter {α : Type} (method : String) (reg : List (String × VendorOutcome α)) :
    List String → RouteResult α × List String
  | [] => (.noAvailableVendor ("No available vendor for '" ++ method ++ "'"), [])
  | v :: rest =>
    match lookupVendor reg v with
    | none => routeIter method reg rest
    | some (.ok a) => (.ok a, [v])
    | some .rateLimited =>
        let r := routeIter method reg rest
        (r.1, v :: r.2)
    | some (.err e) => (.raised e, [v])

/-- `route_to_vendor`, for one method call: `VENDOR_METHODS` restricted to
the given method (`none` when the method is not registered), and the
configured vendor preference string.  Returns the route result together
with the trace of vendors actually invoked. -/
def route_to_vendor {α : Type} (method vendorConfig : String)
    (methodReg : Option (List (String × VendorOutcome α))) : RouteResult α × List String :=
  let primary := primaryVendors vendorConfig
  match methodReg with
  | none => (.unsupported ("Method '" ++ method ++ "' not supported"), [])
  | some reg =>
      routeIter method reg (buildFallbackChain primary (reg.map (fun p => p.1)))

/-! ## Online time-series cache (`StockstatsUtils.get_stock_stats`, online branch)

The cache key `f"{symbol}-data-{start_date}-{end_date}.csv"` is fixed once
symbol and window are fixed; the state relevant to one call is whether a
file under that key exists and, if so, the series it holds. -/

/-- Outcome of the remote fetch `tushare_utils.get_stock_data(...)`:
a series of rows, or an exception. -/
inductive FetchOutcome (ρ : Type) where
  | ok (rows : List ρ)
  | raises (e : String)
deriving Repr, DecidableEq

/-- Observable outcome of the cache step of one online call: the series the
call proceeds with (or the propagated error), the cache-file state after the
call, and whether a remote fetch was performed. -/
structure CacheStepOut (ρ : Type) where
  result : Except String (List ρ)
  cacheFile : Option (List ρ)
  fetched : Bool
deriving Repr

/-- The cache step of the online branch: if the cache file exists it is read
and returned (no fetch); otherwise the remote fetch runs, and on success its
result — whatever it is, empty included — is written to the cache file; a
fetch exception propagates with nothing written. -/
def get_stock_stats_cacheStep {ρ : Type} (cacheFile : Option (List ρ))
    (fetch : FetchOutcome ρ) : CacheStepOut ρ :=
  match cacheFile with
  | some rows => ⟨.ok rows, some rows, false⟩
  | none =>
    match fetch with
    | .raises e => ⟨.error e, none, false⟩
    | .ok rows => ⟨.ok rows, some rows, true⟩

/-! ## Indicator lookup (`StockstatsUtils.get_stock_stats`, final lookup) -/

/-- A timestamp of the series index, split into its calendar-date part and
its time-of-day part (`df.index.date` keeps only the former). -/
structure Timestamp where
  year : Nat
  month : Nat
  day : Nat
  hour : Nat := 0
  minute : Nat := 0
deriving Repr, DecidableEq

/-- `df.index.date == curr_date_dt.date()`: day-granularity comparison,
ignoring the time-of-day fields. -/
def sameCalendarDate (a b : Timestamp) : Bool :=
  a.year == b.year && a.month == b.month && a.day == b.day

/-- Result of the indicator lookup: a value of the indicator column, or the
sentinel string `"N/A: Not a trading day (weekend or holiday)"`. -/
inductive IndicatorResult (V : Type) where
  | value (v : V)
  | notATradingDay
deriving Repr, DecidableEq

/-- The lookup tail of `get_stock_stats`: filter the series (rows of the
indicator column, already computed over the whole series) to the rows whose
calendar date equals the requested date; a non-empty match returns
`matching_rows[indicator].values[0]`, an empty match returns the sentinel. -/
def get_stock_stats_lookup {V : Type} (rows : List (Timestamp × V))
    (currDate : Timestamp) : IndicatorResult V :=
  match rows.filter (fun r => sameCalendarDate r.1 currDate) with
  | [] => .notATradingDay
  | r :: _ => .value r.2

/-! ## Concrete wire functions used by the claim instances -/

/-- An item with a datetime and a url, as the scenario items of the spec. -/
def exampleItem (dt u : String) : NewsItem :=
  { datetime_local := some dt, url := some u }

/-- Response of the first scenario site: two items. -/
def scenarioR1 : SiteResult :=
  { platform := some "东方财富股吧", category := some "social",
    items := [exampleItem "2025-09-15 10:00" "https://a/1", exampleItem "2025-09-16 11:00" "https://a/2"],
    found_count := some 2 }

/-- Response of the second scenario site: two items, the first sharing its
url with an item of the first site. -/
def scenarioR2 : SiteResult :=
  { platform := some "百度贴吧", category := some "social",
    items := [exampleItem "2025-09-17 12:00" "https://a/2", exampleItem "2025-09-18 13:00" "https://a/3"],
    found_count := some 2 }

/-- Response of the third scenario site: two items. -/
def scenarioR3 : SiteResult :=
  { platform := some "知乎", category := some "social",
    items := [exampleItem "2025-09-19 14:00" "https://a/4", exampleItem "2025-09-20 15:00" "https://a/5"],
    found_count := some 2 }

/-- The spec's example scenario: of the 10 configured sites, 3 return 2 items
each, with exactly one url shared between the first two; the other 7 sites
return nothing. -/
def threeSiteWire : Site → WireOutcome := fun s =>
  if s.name == "东方财富股吧" then .json scenarioR1
  else if s.name == "百度贴吧" then .json scenarioR2
  else if s.name == "知乎" then .json scenarioR3
  else .noText

/-- A wire where one site returns a single item that has a url but no
`datetime_local` key at all (an unresolvable timestamp). -/
def noTimestampWire : Site → WireOutcome := fun s =>
  if s.name == "东方财富股吧" then .json { items := [{ url := some "https://example.com/x" }] }
  else .noText

/-- A wire where one site returns a single item that has a timestamp but no
url key. -/
def noUrlWire : Site → WireOutcome := fun s =>
  if s.name == "东方财富股吧" then .json { items := [{ datetime_local := some "2025-09-15 10:00" }] }
  else .noText

/-! ## Helper lemmas about the aggregation pipeline -/

instance : IsTotal NewsItem (fun a b => dtKey a ≤ dtKey b) :=
  ⟨fun _ _ => le_total _ _⟩

instance : IsTrans NewsItem (fun a b => dtKey a ≤ dtKey b) :=
  ⟨fun _ _ _ h1 h2 => le_trans h1 h2⟩

lemma allItems_append (l1 l2 : List (Site × WireOutcome)) :
    allItems (l1 ++ l2) = allItems l1 ++ allItems l2 := by
  simp [allItems]

lemma allItems_cons (p : Site × WireOutcome) (l : List (Site × WireOutcome)) :
    allItems (p :: l) = (collectSite p.1 p.2).1 ++ allItems l := by
  simp [allItems]

lemma searchSummary_append (l1 l2 : List (Site × WireOutcome)) :
    searchSummary (l1 ++ l2) = searchSummary l1 ++ searchSummary l2 := by
  simp [searchSummary]

lemma mem_dedupByUrl_urlOk {it : NewsItem} :
    ∀ {l : List NewsItem} {seen : List String}, it ∈ dedupByUrl l seen →
      it.url ≠ none ∧ it.url ≠ some "" := by
  intro l
  induction l with
  | nil => intro seen h; simp [dedupByUrl] at h
  | cons hd tl ih =>
      intro seen h
      cases hu : hd.url with
      | none =>
          simp only [dedupByUrl, hu] at h
          exact ih h
      | some u =>
          simp only [dedupByUrl, hu] at h
          split at h
          · rcases List.mem_cons.mp h with h1 | h1
            · subst h1
              rename_i hk
              have hne : u ≠ "" := by
                rcases (Bool.and_eq_true _ _).mp hk with ⟨h2, _⟩
                exact of_decide_eq_true h2
              rw [hu]
              exact ⟨by simp, by simpa using hne⟩
            · exact ih h1
          · exact ih h

lemma aggregate_items_perm (runs : List (Site × WireOutcome)) (sd ed : String) :
    (aggregate runs sd ed).items.Perm (dedupByUrl (allItems runs) []) :=
  List.perm_insertionSort _ _

lemma mem_aggregate_items_iff (runs : List (Site × WireOutcome)) (sd ed : String)
    (it : NewsItem) :
    it ∈ (aggregate runs sd ed).items ↔ it ∈ dedupByUrl (allItems runs) [] :=
  (aggregate_items_perm runs sd ed).mem_iff

/-! ## Claim C1 — aggregation, deduplication, sorting and summary counts -/

/-- C1: after all per-site sub-queries complete, the aggregator concatenates
all returned items, deduplicates them by url (first occurrence wins), sorts
the result ascending by the `datetime_local` string, and reports
`total_items_found` = number of raw concatenated items, `unique_items` =
number after url-deduplication, and `sites_searched` = number of configured
sites; in the spec's 10-site scenario with 3 sites returning 2 items each
and one shared url, the summary is `total_items_found = 6`,
`unique_items = 5`, `sites_searched = 10`. -/
theorem C1_aggregation_dedup_sort_summary :
    (∀ (runs : List (Site × WireOutcome)) (sd ed : String),
      (aggregate runs sd ed).summary.total_items_found = (allItems runs).length
      ∧ (aggregate runs sd ed).summary.unique_items = (dedupByUrl (allItems runs) []).length
      ∧ (aggregate runs sd ed).summary.sites_searched = runs.length
      ∧ (aggregate runs sd ed).items.Perm (dedupByUrl (allItems runs) [])
      ∧ (aggregate runs sd ed).items.Sorted (fun a b => dtKey a ≤ dtKey b))
    ∧ (∀ (wire : Site → WireOutcome) (sd ed : String),
      (get_stock_news_openai wire sd ed).summary.sites_searched = SITES.length)
    ∧ (get_stock_news_openai threeSiteWire "2025-09-14" "2025-09-21").summary.total_items_found = 6
    ∧ (get_stock_news_openai threeSiteWire "2025-09-14" "2025-09-21").summary.unique_items = 5
    ∧ (get_stock_news_openai threeSiteWire "2025-09-14" "2025-09-21").summary.sites_searched = 10 := by
  refine ⟨fun runs sd ed => ⟨rfl, rfl, rfl, aggregate_items_perm runs sd ed, ?_⟩,
    fun wire sd ed => ?_, by decide, by decide, by decide⟩
  · exact List.sorted_insertionSort _ _
  · simp [get_stock_news_openai, aggregate]

/-! ## Claim C7 — no timestamp filtering happens in the aggregator -/

/-- C7 counterexample: the claim says every surfaced item has a resolvable
timestamp inside the requested window and that items with unresolvable
timestamps are discarded; but a sub-query item carrying a url and no
`datetime_local` key at all is surfaced unchanged (up to platform tagging)
by the aggregator. -/
theorem C7_counterexample_no_timestamp_item_surfaced :
    (get_stock_news_openai noTimestampWire "2025-09-14" "2025-09-21").items =
      [{ url := some "https://example.com/x", platform := some "东方财富股吧",
         category := some "social" }]
    ∧ ({ url := some "https://example.com/x", platform := some "东方财富股吧",
         category := some "social" : NewsItem }).datetime_local = none := by
  exact ⟨by decide, rfl⟩

/-- C7 amended: the aggregator itself performs no timestamp filtering —
membership of an item in the surfaced output depends only on url
deduplication of the concatenated sub-query items, never on whether its
timestamp is resolvable or inside the requested window (window filtering is
only requested from the per-site search prompt). -/
theorem C7_amended_no_window_filter (runs : List (Site × WireOutcome)) (sd ed : String)
    (it : NewsItem) :
    it ∈ (aggregate runs sd ed).items ↔ it ∈ dedupByUrl (allItems runs) [] :=
  mem_aggregate_items_iff runs sd ed it

/-! ## Claim C8 — per-site failure containment -/

/-- C8: a sub-query that raises or returns nothing contributes zero items
and a `found_count` of 0 to the summary's `search_details`; an unparsable
response degrades to an empty item list for that site with the explicit
error marker `"Failed to parse response"`; and in neither case does the
failure abort the aggregation, which still completes with the other sites'
items and summary entries intact. -/
theorem C8_per_site_failure_containment :
    (∀ (site : Site) (msg : String), collectSite site (.raises msg) = ([], ⟨site.name, 0⟩))
    ∧ (∀ site : Site, collectSite site .noText = ([], ⟨site.name, 0⟩))
    ∧ (∀ site : Site, search_one_site site .unparsable =
        some { platform := some site.name, category := some site.category, items := [],
               found_count := some 0, error := some "Failed to parse response" }
        ∧ collectSite site .unparsable = ([], ⟨site.name, 0⟩))
    ∧ (∀ (pre post : List (Site × WireOutcome)) (site : Site) (w : WireOutcome) (sd ed : String),
        ((∃ msg, w = .raises msg) ∨ w = .noText ∨ w = .unparsable) →
        allItems (pre ++ (site, w) :: post) = allItems pre ++ allItems post
        ∧ (aggregate (pre ++ (site, w) :: post) sd ed).summary.search_details =
            searchSummary pre ++ ⟨site.name, 0⟩ :: searchSummary post) := by
  refine ⟨fun site msg => rfl, fun site => rfl, fun site => ⟨rfl, rfl⟩, ?_⟩
  intro pre post site w sd ed h
  have hcol : collectSite site w = ([], ⟨site.name, 0⟩) := by
    rcases h with ⟨msg, rfl⟩ | rfl | rfl <;> rfl
  constructor
  · rw [allItems_append, allItems_cons, hcol]
    simp
  · show searchSummary (pre ++ (site, w) :: post) =
      searchSummary pre ++ ⟨site.name, 0⟩ :: searchSummary post
    rw [searchSummary_append]
    simp [searchSummary, hcol]

/-- C8 witness: the containment conjunct applied to a concrete failing site
with no other sites around it. -/
theorem C8_per_site_failure_containment_witness :
    allItems [(⟨"知乎", ["zhihu.com"], "social"⟩, WireOutcome.noText)] = []
    ∧ (aggregate [(⟨"知乎", ["zhihu.com"], "social"⟩, WireOutcome.noText)]
        "2025-09-14" "2025-09-21").summary.search_details = [⟨"知乎", 0⟩] := by
  have h := C8_per_site_failure_containment.2.2.2 [] []
    ⟨"知乎", ["zhihu.com"], "social"⟩ WireOutcome.noText "2025-09-14" "2025-09-21"
    (Or.inr (Or.inl rfl))
  exact ⟨by simpa using h.1, by simpa using h.2⟩

/-! ## Claim C10 — items without a url are dropped by deduplication -/

/-- C10: every surfaced item has a present, non-empty url; an aggregated
item whose url key is missing or empty is dropped during deduplication — it
is counted in `total_items_found` but appears neither in the output items
nor in `unique_items`. -/
theorem C10_items_without_url_dropped :
    (∀ (l : List NewsItem) (seen : List String) (it : NewsItem),
        it ∈ dedupByUrl l seen → it.url ≠ none ∧ it.url ≠ some "")
    ∧ (∀ (runs : List (Site × WireOutcome)) (sd ed : String) (it : NewsItem),
        it ∈ (aggregate runs sd ed).items → it.url ≠ none ∧ it.url ≠ some "")
    ∧ (∀ (runs : List (Site × WireOutcome)) (sd ed : String),
        (aggregate runs sd ed).summary.total_items_found = (allItems runs).length)
    ∧ (get_stock_news_openai noUrlWire "2025-09-14" "2025-09-21").summary.total_items_found = 1
    ∧ (get_stock_news_openai noUrlWire "2025-09-14" "2025-09-21").summary.unique_items = 0
    ∧ (get_stock_news_openai noUrlWire "2025-09-14" "2025-09-21").items = [] := by
  refine ⟨fun l seen it h => mem_dedupByUrl_urlOk h,
    fun runs sd ed it h => mem_dedupByUrl_urlOk ((mem_aggregate_items_iff runs sd ed it).mp h),
    fun runs sd ed => rfl, by decide, by decide, by decide⟩

/-- C10 witness: a surfaced item of the three-site scenario indeed carries a
present, non-empty url. -/
theorem C10_items_without_url_dropped_witness :
    ({ datetime_local := some "2025-09-15 10:00", url := some "https://a/1",
       platform := some "东方财富股吧", category := some "social" : NewsItem }).url ≠ none
    ∧ ({ datetime_local := some "2025-09-15 10:00", url := some "https://a/1",
         platform := some "东方财富股吧", category := some "social" : NewsItem }).url ≠ some "" :=
  C10_items_without_url_dropped.2.1 (SITES.map (fun s => (s, threeSiteWire s)))
    "2025-09-14" "2025-09-21" _ (by decide)

/-! ## Helper lemmas about the vendor router -/

lemma buildFold_eq (registered : List String) :
    ∀ acc : List String, registered.Nodup →
      registered.foldl (fun acc v => if acc.contains v then acc else acc ++ [v]) acc
        = acc ++ registered.filter (fun v => !acc.contains v) := by
  induction registered with
  | nil => intro acc _; simp
  | cons v rest ih =>
      intro acc h
      rcases List.nodup_cons.mp h with ⟨hv, hrest⟩
      rw [List.foldl_cons]
      by_cases hc : acc.contains v = true
      · rw [if_pos hc, ih acc hrest, List.filter_cons]
        have hnot : (!acc.contains v) = false := by rw [hc]; rfl
        rw [hnot]
        rfl
      · have hcf : acc.contains v = false := by
          revert hc; cases acc.contains v <;> simp
        rw [if_neg hc, ih _ hrest, List.filter_cons]
        have hnot : (!acc.contains v) = true := by rw [hcf]; rfl
        rw [hnot, if_pos rfl]
        have hpt : ∀ x ∈ rest, (!(acc ++ [v]).contains x) = (!acc.contains x) := by
          intro x hx
          have hxv : x ≠ v := fun hh => hv (hh ▸ hx)
          simp [hxv]
        rw [List.filter_congr hpt]
        simp

lemma routeIter_exhausted {α : Type} (method : String) (reg : List (String × VendorOutcome α)) :
    ∀ chain : List String,
      (∀ v ∈ chain, lookupVendor reg v = none ∨ lookupVendor reg v = some .rateLimited) →
      (routeIter method reg chain).1
        = .noAvailableVendor ("No available vendor for '" ++ method ++ "'") := by
  intro chain
  induction chain with
  | nil => intro _; rfl
  | cons v rest ih =>
      intro h
      rcases h v (by simp) with hv | hv
      · simp only [routeIter, hv]
        exact ih (fun x hx => h x (by simp [hx]))
      · simp only [routeIter, hv]
        exact ih (fun x hx => h x (by simp [hx]))

/-! ## Claim C2 — rate-limit fallback, non-retryable error propagation -/

/-- C2: the router invokes vendors in fallback-chain order (a vendor not in
the registry is skipped without invocation); a rate-limit error advances to
the next vendor in the chain, so a rate-limited preferred vendor followed by
a succeeding fallback yields the fallback's result with the rate-limit
error swallowed; any other error propagates immediately and no further
vendor is attempted — the result and the invocation trace are independent
of every later vendor in the chain. -/
theorem C2_rate_limit_fallback_error_propagation :
    (∀ (α : Type) (method : String) (reg : List (String × VendorOutcome α)) (v : String)
        (rest : List String),
      lookupVendor reg v = none →
      routeIter method reg (v :: rest) = routeIter method reg rest)
    ∧ (∀ (α : Type) (method : String) (reg : List (String × VendorOutcome α)) (v : String)
        (rest : List String),
      lookupVendor reg v = some .rateLimited →
      routeIter method reg (v :: rest) =
        ((routeIter method reg rest).1, v :: (routeIter method reg rest).2))
    ∧ (∀ (α : Type) (method : String) (reg : List (String × VendorOutcome α)) (v : String)
        (rest : List String) (a : α),
      lookupVendor reg v = some (.ok a) →
      routeIter method reg (v :: rest) = (.ok a, [v]))
    ∧ (∀ (α : Type) (method : String) (reg : List (String × VendorOutcome α)) (v : String)
        (rest : List String) (e : String),
      lookupVendor reg v = some (.err e) →
      routeIter method reg (v :: rest) = (.raised e, [v]))
    ∧ (∀ x : Nat, route_to_vendor "get_data" "alphavantage"
        (some [("alphavantage", VendorOutcome.rateLimited), ("yfinance", VendorOutcome.ok x)])
        = (.ok x, ["alphavantage", "yfinance"]))
    ∧ (∀ (e : String) (w : VendorOutcome Nat), route_to_vendor "get_data" "alphavantage"
        (some [("alphavantage", VendorOutcome.err e), ("yfinance", w)])
        = (.raised e, ["alphavantage"])) := by
  refine ⟨?_, ?_, ?_, ?_, fun x => rfl, fun e w => rfl⟩
  · intro α method reg v rest h
    simp only [routeIter, h]
  · intro α method reg v rest h
    simp only [routeIter, h]
  · intro α method reg v rest a h
    simp only [routeIter, h]
  · intro α method reg v rest e h
    simp only [routeIter, h]

/-- C2 witness: the ok- and err-cases of the characterization applied to
concrete registries and chains. -/
theorem C2_rate_limit_fallback_error_propagation_witness :
    routeIter "get_data" [("yfinance", VendorOutcome.ok (42 : Nat))] ["yfinance"]
      = (.ok 42, ["yfinance"])
    ∧ routeIter "get_data" [("alphavantage", VendorOutcome.err (α := Nat) "bad request")]
        ["alphavantage", "yfinance"] = (.raised "bad request", ["alphavantage"]) :=
  ⟨C2_rate_limit_fallback_error_propagation.2.2.1 Nat "get_data"
      [("yfinance", VendorOutcome.ok 42)] "yfinance" [] 42 (by decide),
   C2_rate_limit_fallback_error_propagation.2.2.2.1 Nat "get_data"
      [("alphavantage", VendorOutcome.err "bad request")] "alphavantage" ["yfinance"]
      "bad request" (by decide)⟩

/-! ## Claim C3 — the fallback chain is not de-duplicated among preferred vendors -/

/-- C3 counterexample: the claim says the chain is de-duplicated so that no
vendor name appears twice; but the code copies the configured preferred list
verbatim, so the configured preference string `"alphavantage, alphavantage"`
produces a chain in which `alphavantage` appears twice. -/
theorem C3_counterexample_duplicate_preferred :
    buildFallbackChain (primaryVendors "alphavantage, alphavantage") ["alphavantage", "yfinance"]
      = ["alphavantage", "alphavantage", "yfinance"]
    ∧ ¬ (["alphavantage", "alphavantage", "yfinance"] : List String).Nodup :=
  ⟨by decide, by decide⟩

/-- C3 amended: the fallback chain is the configured preferred vendors first,
in configured order with duplicates preserved (only the registry additions
are checked against the chain), followed by every registered vendor not
already in the chain, in registry order; and an exhausted chain — every
chain vendor unregistered or rate-limited — fails with the
`RuntimeError` naming the method. -/
theorem C3_amended_chain_structure :
    (∀ primary registered : List String, registered.Nodup →
      buildFallbackChain primary registered
        = primary ++ registered.filter (fun v => !primary.contains v))
    ∧ (∀ (α : Type) (method : String) (reg : List (String × VendorOutcome α))
        (chain : List String),
      (∀ v ∈ chain, lookupVendor reg v = none ∨ lookupVendor reg v = some .rateLimited) →
      (routeIter method reg chain).1
        = .noAvailableVendor ("No available vendor for '" ++ method ++ "'")) :=
  ⟨fun primary registered h => buildFold_eq registered primary h,
   fun _ method reg chain h => routeIter_exhausted method reg chain h⟩

/-- C3 witness: the chain equation at a duplicated preferred configuration
and the exhaustion error at a chain of one rate-limited vendor. -/
theorem C3_amended_chain_structure_witness :
    buildFallbackChain ["alphavantage", "alphavantage"] ["alphavantage", "yfinance"]
      = ["alphavantage", "alphavantage"]
        ++ ["alphavantage", "yfinance"].filter (fun v => !(["alphavantage", "alphavantage"].contains v))
    ∧ (routeIter "get_data" [("alphavantage", VendorOutcome.rateLimited (α := Nat))]
        ["alphavantage"]).1
      = .noAvailableVendor ("No available vendor for '" ++ "get_data" ++ "'") :=
  ⟨C3_amended_chain_structure.1 ["alphavantage", "alphavantage"] ["alphavantage", "yfinance"]
      (by decide),
   C3_amended_chain_structure.2 Nat "get_data" [("alphavantage", VendorOutcome.rateLimited)]
      ["alphavantage"] (by decide)⟩

/-! ## Claim C4 — cache write-on-fetch behaviour -/

/-- C4 counterexample: the claim says a result is persisted only after being
validated non-empty, so a cache file never holds an empty series; but a
fetch that succeeds with an empty series is persisted as-is, and a later
call treats that empty cache file as cached-and-valid (returning it with no
fetch).  The error half of the claim does hold and is restated in the
amended theorem. -/
theorem C4_counterexample_empty_series_persisted :
    ¬ (∀ (cacheFile : Option (List Nat)) (fetch : FetchOutcome Nat) (rows : List Nat),
        (get_stock_stats_cacheStep cacheFile fetch).cacheFile = some rows → rows ≠ [])
    ∧ (get_stock_stats_cacheStep (none : Option (List Nat)) (.ok [])).cacheFile = some []
    ∧ (get_stock_stats_cacheStep (some ([] : List Nat)) (.raises "network down")).result = .ok []
    ∧ (get_stock_stats_cacheStep (some ([] : List Nat)) (.raises "network down")).fetched = false :=
  ⟨fun h => h none (.ok []) [] rfl rfl, rfl, rfl, rfl⟩

/-- C4 amended: if the remote fetch raises, no cache file is written, the
error propagates to the caller and the cache state is unchanged; if the
fetch succeeds, the fetched series is persisted unconditionally — including
when it is empty — with no non-empty validation before the write. -/
theorem C4_amended_fetch_error_and_unconditional_persist :
    (∀ (ρ : Type) (e : String),
      get_stock_stats_cacheStep (none : Option (List ρ)) (.raises e)
        = ⟨.error e, none, false⟩)
    ∧ (∀ (ρ : Type) (rows : List ρ),
      get_stock_stats_cacheStep (none : Option (List ρ)) (.ok rows)
        = ⟨.ok rows, some rows, true⟩) :=
  ⟨fun _ _ => rfl, fun _ _ => rfl⟩

/-! ## Claim C5 — cache idempotence -/

/-- C5: when a file matching the cache key exists, it is loaded and returned
with no remote fetch regardless of what a fetch would return (no staleness
check); so for a fixed key, a first call that fetches `rows` and a second
call over the resulting cache state return the identical series, and only
the first call fetched. -/
theorem C5_cache_idempotent :
    (∀ (ρ : Type) (rows : List ρ) (fetch : FetchOutcome ρ),
      get_stock_stats_cacheStep (some rows) fetch = ⟨.ok rows, some rows, false⟩)
    ∧ (∀ (ρ : Type) (rows : List ρ) (fetch2 : FetchOutcome ρ),
      (get_stock_stats_cacheStep (none : Option (List ρ)) (.ok rows)).result = .ok rows
      ∧ (get_stock_stats_cacheStep (none : Option (List ρ)) (.ok rows)).fetched = true
      ∧ get_stock_stats_cacheStep
          (get_stock_stats_cacheStep (none : Option (List ρ)) (.ok rows)).cacheFile fetch2
        = ⟨.ok rows, some rows, false⟩) :=
  ⟨fun _ _ _ => rfl, fun _ _ _ => ⟨rfl, rfl, rfl⟩⟩

/-! ## Claim C6 — day-granularity lookup and the NotATradingDay sentinel -/

/-- C6: the indicator lookup matches rows by calendar date at day
granularity, ignoring the time-of-day of both the series index and the
requested date; when a row matches it returns the first matching row's
indicator value, and when no row matches it returns the `NotATradingDay`
sentinel, which is distinct from every numeric value and raises nothing. -/
theorem C6_day_granularity_and_sentinel :
    (∀ (V : Type) (rows : List (Timestamp × V)) (curr : Timestamp)
        (r : Timestamp × V) (rest : List (Timestamp × V)),
      rows.filter (fun p => sameCalendarDate p.1 curr) = r :: rest →
      get_stock_stats_lookup rows curr = .value r.2)
    ∧ (∀ (V : Type) (rows : List (Timestamp × V)) (curr : Timestamp),
      (∀ r ∈ rows, sameCalendarDate r.1 curr = false) →
      get_stock_stats_lookup rows curr = .notATradingDay)
    ∧ (∀ (V : Type) (rows : List (Timestamp × V)) (y m d h1 mi1 h2 mi2 : Nat),
      get_stock_stats_lookup rows ⟨y, m, d, h1, mi1⟩
        = get_stock_stats_lookup rows ⟨y, m, d, h2, mi2⟩)
    ∧ (∀ (V : Type) (v : V), (IndicatorResult.value v) ≠ .notATradingDay) := by
  refine ⟨?_, ?_, fun V rows y m d h1 mi1 h2 mi2 => rfl, fun V v h => by cases h⟩
  · intro V rows curr r rest h
    unfold get_stock_stats_lookup
    rw [h]
  · intro V rows curr h
    unfold get_stock_stats_lookup
    rw [List.filter_eq_nil_iff.mpr (fun r hr => by simp [h r hr])]

/-- C6 witness: the lookup at a two-row series — a request on a trading day
(at a different time of day than the row) returns the row's value, a
request on a non-trading day returns the sentinel. -/
theorem C6_day_granularity_and_sentinel_witness :
    get_stock_stats_lookup [(⟨2025, 9, 19, 9, 30⟩, (7 : Nat)), (⟨2025, 9, 22, 9, 30⟩, 8)]
      ⟨2025, 9, 22, 0, 0⟩ = .value 8
    ∧ get_stock_stats_lookup [(⟨2025, 9, 19, 9, 30⟩, (7 : Nat)), (⟨2025, 9, 22, 9, 30⟩, 8)]
      ⟨2025, 9, 20, 0, 0⟩ = .notATradingDay :=
  ⟨C6_day_granularity_and_sentinel.1 Nat
      [(⟨2025, 9, 19, 9, 30⟩, 7), (⟨2025, 9, 22, 9, 30⟩, 8)] ⟨2025, 9, 22, 0, 0⟩
      (⟨2025, 9, 22, 9, 30⟩, 8) [] (by decide),
   C6_day_granularity_and_sentinel.2.1 Nat
      [(⟨2025, 9, 19, 9, 30⟩, 7), (⟨2025, 9, 22, 9, 30⟩, 8)] ⟨2025, 9, 20, 0, 0⟩
      (by decide)⟩

end TradingAgents
